import Mathlib

/-!
Shallow embedding of the Go tiny ray tracer (full-featured variant,
`src/unnamed/part_000`, plus the channel quantization shared with
`src/main.go`).

Modelling conventions:
* `float64` values are modelled as `ℚ`; `math.Sqrt` is modelled by
  `Rat.sqrt`, which agrees with the real square root on every rational
  square (all concrete inputs exercised below are exact squares).
* Go pointers to `Material` are modelled by indices into a store
  `MatStore := ℕ → Material`; writing through a pointer becomes a store
  update. This captures the aliasing between a sphere's `Material` and
  the `curMaterial` variable of `sceneIntersect`.
* Go conversions `int(x)` and `uint8(x)` truncate toward zero; they are
  modelled by `truncQ`.
* Go `nil` vector fields that the program never dereferences (the `hit`
  and `n` variables before any surface is found, and the
  `DiffuseColor` of `NewMaterial` before it is assigned) are modelled
  by the zero vector.
-/

/-- Three-component vector, from `type vec3f struct`. -/
structure vec3f where
  X : ℚ
  Y : ℚ
  Z : ℚ
deriving DecidableEq, Repr

/-- Four-component vector, from `type vec4f struct`. -/
structure vec4f where
  X : ℚ
  Y : ℚ
  Z : ℚ
  T : ℚ
deriving DecidableEq, Repr

/-- Dot product, from `func (v *vec3f) Multiply`. -/
def vec3f.Multiply (v rhs : vec3f) : ℚ :=
  v.X * rhs.X + v.Y * rhs.Y + v.Z * rhs.Z

/-- Scalar multiplication, from `func (v *vec3f) MultiplyF`. -/
def vec3f.MultiplyF (v : vec3f) (rhs : ℚ) : vec3f :=
  ⟨v.X * rhs, v.Y * rhs, v.Z * rhs⟩

/-- Componentwise sum, from `func (v *vec3f) Add`. -/
def vec3f.Add (v rhs : vec3f) : vec3f :=
  ⟨v.X + rhs.X, v.Y + rhs.Y, v.Z + rhs.Z⟩

/-- Componentwise difference, from `func (v *vec3f) Subtract`. -/
def vec3f.Subtract (v rhs : vec3f) : vec3f :=
  ⟨v.X - rhs.X, v.Y - rhs.Y, v.Z - rhs.Z⟩

/-- Euclidean norm, from `func (v *vec3f) norm`; `math.Sqrt` is
modelled by `Rat.sqrt`. -/
def vec3f.norm (v : vec3f) : ℚ :=
  Rat.sqrt (v.X * v.X + v.Y * v.Y + v.Z * v.Z)

/-- Normalization, from `func (v *vec3f) Normalize`. -/
def vec3f.Normalize (v : vec3f) : vec3f :=
  v.MultiplyF (1 / v.norm)

/-- Surface description, from `type Material struct`. The Go struct
holds pointers to its `Albedo` and `DiffuseColor`; those inner objects
are never mutated (only the `DiffuseColor` pointer field of a
`Material` is reassigned), so they are modelled as plain values. -/
structure Material where
  Albedo : vec4f
  DiffuseColor : vec3f
  SpecularExponent : ℚ
  RefractiveIndex : ℚ
deriving DecidableEq, Repr

/-- From `func NewMaterial`: only `RefractiveIndex` and `Albedo` are
set; `SpecularExponent` is Go's zero value and `DiffuseColor` is a nil
pointer, modelled as the zero vector (it is never read before being
assigned). -/
def NewMaterial : Material :=
  { Albedo := ⟨1, 0, 0, 0⟩
    DiffuseColor := ⟨0, 0, 0⟩
    SpecularExponent := 0
    RefractiveIndex := 1 }

/-- The heap of `Material` objects: a Go `*Material` is an index. -/
def MatStore : Type := ℕ → Material

/-- Write through a `*Material`: replace the object at index `i`. -/
def storeSet (st : MatStore) (i : ℕ) (m : Material) : MatStore :=
  fun j => if j = i then m else st j

/-- Build a store from a list (indices past the end give
`NewMaterial`; the scenes below only use in-range indices). -/
def storeOf (l : List Material) : MatStore :=
  fun i => l.getD i NewMaterial

/-- From `type Sphere struct`; `material` is the index of the shared
`Material` the Go pointer refers to. -/
structure Sphere where
  Center : vec3f
  Radius : ℚ
  material : ℕ
deriving DecidableEq, Repr

/-- From `type Light struct`. -/
structure Light where
  Position : vec3f
  Intensity : ℚ
deriving DecidableEq, Repr

/-- The `curMaterial` pointer of `sceneIntersect`: either the fresh
object allocated by `NewMaterial()` or a pointer into the store. -/
inductive MatRef where
  | fresh : Material → MatRef
  | shared : ℕ → MatRef
deriving DecidableEq, Repr

/-- Read the `Material` a `MatRef` points to. -/
def matDeref (st : MatStore) (r : MatRef) : Material :=
  match r with
  | .fresh m => m
  | .shared i => st i

/-- The assignment `curMaterial.DiffuseColor = c`, performed through
the pointer: it updates the pointed-to object (the shared store entry
when `curMaterial` aliases a sphere's material). -/
def matSetDiffuse (st : MatStore) (r : MatRef) (c : vec3f) : MatRef × MatStore :=
  match r with
  | .fresh m => (.fresh { m with DiffuseColor := c }, st)
  | .shared i => (.shared i, storeSet st i { st i with DiffuseColor := c })

/-- `math.MaxFloat64`, exactly. -/
def maxFloat64 : ℚ := 2 ^ 1024 - 2 ^ 971

/-- Go's float-to-integer conversion `int(q)`: truncation toward
zero (for negative `q` this is `⌈q⌉ = -⌊-q⌋`). -/
def truncQ (q : ℚ) : ℤ :=
  if q < 0 then -⌊-q⌋ else ⌊q⌋

/-- `math.Pow` restricted to the exponents this program uses (all
materials carry nonnegative integer specular exponents; `truncQ` is
the identity on them). -/
def mathPow (b e : ℚ) : ℚ :=
  b ^ (truncQ e).toNat

/-- Mirror reflection, from `func reflect`. -/
def reflect (i n : vec3f) : vec3f :=
  i.Subtract ((n.MultiplyF 2).MultiplyF (i.Multiply n))

/-- Snell refraction, from `func refract`. The Go function recurses
once (with the normal negated and the two indices swapped) when the
incidence cosine is negative; the recursion is well-founded because
the flipped call has a nonnegative cosine. -/
def refract (i n : vec3f) (refractiveIndex etai : ℚ) : vec3f :=
  if h : max (-1) (min 1 (i.Multiply n)) < 0 then
    refract i (n.MultiplyF (-1)) etai refractiveIndex
  else
    let cosi := max (-1) (min 1 (i.Multiply n))
    let eta := etai / refractiveIndex
    let k := 1 - eta * eta * (1 - cosi * cosi)
    if k < 0 then ⟨1, 0, 0⟩
    else (i.MultiplyF eta).Add (n.MultiplyF (eta * cosi - Rat.sqrt k))
termination_by (if i.Multiply n < 0 then 1 else 0 : ℕ)
decreasing_by
  have hlt : i.Multiply n < 0 := by
    by_contra hc
    push_neg at hc
    exact absurd h (not_lt.mpr (le_max_of_le_right (le_min (by norm_num) hc)))
  have hneg : i.Multiply (n.MultiplyF (-1)) = -(i.Multiply n) := by
    simp only [vec3f.Multiply, vec3f.MultiplyF]
    ring
  rw [hneg, if_neg (not_lt.mpr (by linarith)), if_pos hlt]
  exact Nat.zero_lt_one

/-- From `func (s Sphere) RayIntersect`. -/
def RayIntersect (s : Sphere) (orig dir : vec3f) : Bool × ℚ :=
  let l := s.Center.Subtract orig
  let tca := l.Multiply dir
  let d2 := l.Multiply l - tca * tca
  if d2 > s.Radius * s.Radius then (false, 0)
  else
    let thc := Rat.sqrt (s.Radius * s.Radius - d2)
    let t0 := tca - thc
    let t1 := tca + thc
    let t := if t0 < 0 then t1 else t0
    if t < 0 then (false, 0) else (true, t)

/-- One pass of the sphere loop of `sceneIntersect`, carrying the
state (nearest distance, current material pointer, hit point, normal)
through the remaining spheres in scene order. -/
def sphereLoopAux (orig dir : vec3f) :
    List Sphere → ℚ × MatRef × vec3f × vec3f → ℚ × MatRef × vec3f × vec3f
  | [], st => st
  | sphere :: rest, st =>
    let r := RayIntersect sphere orig dir
    sphereLoopAux orig dir rest
      (if r.1 = true ∧ r.2 < st.1 then
        (r.2, MatRef.shared sphere.material, orig.Add (dir.MultiplyF r.2),
          ((orig.Add (dir.MultiplyF r.2)).Subtract sphere.Center).Normalize)
      else st)

/-- The sphere loop of `sceneIntersect`, started from Go's initial
state: distance `math.MaxFloat64`, the fresh `NewMaterial()` object,
and nil hit point and normal (modelled by the zero vector, never read
unless some surface is recorded). -/
def sphereLoop (orig dir : vec3f) (spheres : List Sphere) :
    ℚ × MatRef × vec3f × vec3f :=
  sphereLoopAux orig dir spheres
    (maxFloat64, MatRef.fresh NewMaterial, ⟨0, 0, 0⟩, ⟨0, 0, 0⟩)

/-- The plane-ray parameter `d = -(orig.Y+4)/dir.Y` of the
checkerboard branch of `sceneIntersect`. -/
def planeD (orig dir : vec3f) : ℚ :=
  -(orig.Y + 4) / dir.Y

/-- The candidate plane hit point `pt` of the checkerboard branch. -/
def planePt (orig dir : vec3f) : vec3f :=
  orig.Add (dir.MultiplyF (planeD orig dir))

/-- The full acceptance condition of the checkerboard branch of
`sceneIntersect` (both nested `if`s). -/
def planeAccepted (orig dir : vec3f) (spheres : List Sphere) : Prop :=
  |dir.Y| > 1 / 1000 ∧ planeD orig dir > 0 ∧ |(planePt orig dir).X| < 10 ∧
    (planePt orig dir).Z < -10 ∧ (planePt orig dir).Z > -30 ∧
    planeD orig dir < (sphereLoop orig dir spheres).1

instance (orig dir : vec3f) (spheres : List Sphere) :
    Decidable (planeAccepted orig dir spheres) := by
  unfold planeAccepted
  infer_instance

/-- The `checkboardDist` variable of `sceneIntersect`: the accepted
plane distance, or `math.MaxFloat64` when the plane is rejected. -/
def checkboardDist (orig dir : vec3f) (spheres : List Sphere) : ℚ :=
  if planeAccepted orig dir spheres then planeD orig dir else maxFloat64

/-- Result of `sceneIntersect`: the returned quadruple plus the state
of the material heap after the call (the call can write through the
`curMaterial` pointer). -/
structure SIResult where
  intersect : Bool
  point : vec3f
  n : vec3f
  material : Material
  store : MatStore

/-- From `func sceneIntersect`. The checkerboard branch performs
`curMaterial.DiffuseColor = base` then
`curMaterial.DiffuseColor = curMaterial.DiffuseColor.MultiplyF(0.3)`;
the two consecutive writes with no intervening read are modelled as
one write of `base.MultiplyF (3/10)`. The Go parity test
`(int(0.5+hit.X+1000)+int(0.5*hit.Z))&1 != 0` is truncation toward
zero followed by an odd-bit test, i.e. a nonzero remainder mod 2. -/
def sceneIntersect (orig dir : vec3f) (spheres : List Sphere) (store : MatStore) :
    SIResult :=
  let s := sphereLoop orig dir spheres
  if |dir.Y| > 1 / 1000 then
    let d := planeD orig dir
    let pt := planePt orig dir
    if d > 0 ∧ |pt.X| < 10 ∧ pt.Z < -10 ∧ pt.Z > -30 ∧ d < s.1 then
      let base : vec3f :=
        if (truncQ (1 / 2 + pt.X + 1000) + truncQ (1 / 2 * pt.Z)) % 2 ≠ 0 then
          ⟨1, 1, 1⟩
        else ⟨1, 7 / 10, 3 / 10⟩
      let upd := matSetDiffuse store s.2.1 (base.MultiplyF (3 / 10))
      ⟨decide (min s.1 d < 1000), pt, ⟨0, 1, 0⟩, matDeref upd.2 upd.1, upd.2⟩
    else
      ⟨decide (min s.1 maxFloat64 < 1000), s.2.2.1, s.2.2.2,
        matDeref store s.2.1, store⟩
  else
    ⟨decide (min s.1 maxFloat64 < 1000), s.2.2.1, s.2.2.2,
      matDeref store s.2.1, store⟩

/-- The body of the light loop of `castRay`, as a `foldl` step over
the accumulator (diffuse intensity, specular intensity, heap). A
shadow test that reports a hit strictly closer than the light makes
the loop `continue`, leaving both intensities unchanged. -/
def lightStep (point n dir : vec3f) (m : Material) (spheres : List Sphere)
    (acc : ℚ × ℚ × MatStore) (light : Light) : ℚ × ℚ × MatStore :=
  let lightDir := (light.Position.Subtract point).Normalize
  let lightDistance := (light.Position.Subtract point).norm
  let shadowOrig :=
    if lightDir.Multiply n < 0 then point.Subtract (n.MultiplyF (1 / 1000))
    else point.Add (n.MultiplyF (1 / 1000))
  let sr := sceneIntersect shadowOrig lightDir spheres acc.2.2
  if sr.intersect = true ∧ (sr.point.Subtract shadowOrig).norm < lightDistance then
    (acc.1, acc.2.1, sr.store)
  else
    (acc.1 + light.Intensity * max 0 (lightDir.Multiply n),
      acc.2.1 +
        mathPow (max 0 (((reflect (lightDir.MultiplyF (-1)) n).MultiplyF (-1)).Multiply dir))
          m.SpecularExponent * light.Intensity,
      sr.store)

/-- From `func castRay`. Returns the color together with the final
material heap (the Go function mutates the heap through
`sceneIntersect`). Termination: both recursive calls increase `depth`,
which the guard bounds by 4. -/
def castRay (orig dir : vec3f) (spheres : List Sphere) (lights : List Light)
    (store : MatStore) (depth : ℕ) : vec3f × MatStore :=
  let r := sceneIntersect orig dir spheres store
  if h : depth > 4 ∨ r.intersect = false then
    (⟨55 / 255, 176 / 255, 202 / 255⟩, r.store)
  else
    let point := r.point
    let n := r.n
    let m := r.material
    let reflectDir := (reflect dir n).Normalize
    let reflectOrig :=
      if reflectDir.Multiply n < 0 then point.Subtract (n.MultiplyF (1 / 1000))
      else point.Add (n.MultiplyF (1 / 1000))
    let rc := castRay reflectOrig reflectDir spheres lights r.store (depth + 1)
    let refractDir := (refract dir n m.RefractiveIndex 1).Normalize
    let refractOrig :=
      if refractDir.Multiply n < 0 then point.Subtract (n.MultiplyF (1 / 1000))
      else point.Add (n.MultiplyF (1 / 1000))
    let rf := castRay refractOrig refractDir spheres lights rc.2 (depth + 1)
    let acc := lights.foldl (lightStep point n dir m spheres) (0, 0, rf.2)
    let unitVec : vec3f := ⟨1, 1, 1⟩
    let col :=
      ((((m.DiffuseColor.MultiplyF acc.1).MultiplyF m.Albedo.X).Add
            ((unitVec.MultiplyF acc.2.1).MultiplyF m.Albedo.Y)).Add
          (rc.1.MultiplyF m.Albedo.Z)).Add
        (rf.1.MultiplyF m.Albedo.T)
    (col, acc.2.2)
termination_by 5 - depth
decreasing_by
  all_goals
    push_neg at h
    omega

/-- Per-channel quantization of `main`:
`uint8(math.Min(math.Max(0, c), 1) * 255)` (Go's float-to-uint8
conversion truncates toward zero; the clamped product lies in
`[0, 255]`). -/
def quantizeChannel (c : ℚ) : ℤ :=
  truncQ (min (max 0 c) 1 * 255)

/-- Modelled from the spec: the spec's quantization formula
`round(clamp(c,0,1)*255)`, for comparison with `quantizeChannel`. -/
def specQuantizeChannel (c : ℚ) : ℤ :=
  round (min (max 0 c) 1 * 255)

/-- Modelled from the spec: the checkerboard parity sum
`floor(0.5 + hitX + 1000) + floor(0.5 * hitZ)`, for comparison with
the truncation-based sum the code computes. -/
def specCheckerParity (x z : ℚ) : ℤ :=
  ⌊1 / 2 + x + 1000⌋ + ⌊1 / 2 * z⌋

/-- The `ivory` material of `main`. -/
def ivory : Material :=
  { Albedo := ⟨6 / 10, 3 / 10, 1 / 10, 0⟩
    DiffuseColor := ⟨4 / 10, 4 / 10, 3 / 10⟩
    SpecularExponent := 50
    RefractiveIndex := 1 }

/-- The `glass` material of `main`. -/
def glass : Material :=
  { Albedo := ⟨0, 5 / 10, 1 / 10, 8 / 10⟩
    DiffuseColor := ⟨6 / 10, 7 / 10, 8 / 10⟩
    SpecularExponent := 125
    RefractiveIndex := 3 / 2 }

/-- The `redRubber` material of `main`. -/
def redRubber : Material :=
  { Albedo := ⟨9 / 10, 1 / 10, 0, 0⟩
    DiffuseColor := ⟨3 / 10, 1 / 10, 1 / 10⟩
    SpecularExponent := 10
    RefractiveIndex := 1 }

/-- The `mirror` material of `main`. -/
def mirror : Material :=
  { Albedo := ⟨0, 10, 8 / 10, 0⟩
    DiffuseColor := ⟨1, 1, 1⟩
    SpecularExponent := 1425
    RefractiveIndex := 1 }

/-- The material heap of `main`: indices 0..3 are ivory, glass,
redRubber, mirror. -/
def mainStore : MatStore :=
  storeOf [ivory, glass, redRubber, mirror]

/-- The sphere list of `main`. -/
def mainSpheres : List Sphere :=
  [⟨⟨-3, 0, -16⟩, 2, 0⟩,
   ⟨⟨-1, -3 / 2, -12⟩, 2, 1⟩,
   ⟨⟨3 / 2, -1 / 2, -18⟩, 3, 2⟩,
   ⟨⟨7, 5, -18⟩, 4, 3⟩]

/-- The light list of `main`. -/
def mainLights : List Light :=
  [⟨⟨-20, 20, 20⟩, 3 / 2⟩,
   ⟨⟨30, 50, -25⟩, 9 / 5⟩,
   ⟨⟨30, 20, 30⟩, 17 / 10⟩]

/-! ### Helper lemmas (shared by several results below) -/

/-- `Rat.sqrt` is exact on squares of nonnegative rationals. -/
lemma ratSqrt_of_sq (a : ℚ) (h : 0 ≤ a) : Rat.sqrt (a * a) = a := by
  rw [Rat.sqrt_eq, abs_of_nonneg h]

/-- The square root needed by the shadow-distance computation of the
occlusion witness: `(2999/1000)^2 = 8994001/1000000`. -/
lemma ratSqrt_shadow : Rat.sqrt (8994001 / 1000000) = 2999 / 1000 := by
  have h := ratSqrt_of_sq (2999 / 1000) (by norm_num)
  norm_num at h
  exact h

/-- Writing the diffuse color through the `curMaterial` pointer makes
the dereferenced material carry exactly that color, whether the
pointer is the fresh object or a shared store entry. -/
lemma matSetDiffuse_diffuse (st : MatStore) (r : MatRef) (c : vec3f) :
    (matDeref (matSetDiffuse st r c).2 (matSetDiffuse st r c).1).DiffuseColor = c := by
  cases r <;> simp [matSetDiffuse, matDeref, storeSet]

/-- On an accepted checkerboard hit, the reported diffuse color is the
parity-selected checker color scaled by 0.3 (parity taken with Go's
truncating conversion). -/
lemma planeHitColor (orig dir : vec3f) (spheres : List Sphere) (store : MatStore)
    (h : planeAccepted orig dir spheres) :
    (sceneIntersect orig dir spheres store).material.DiffuseColor =
      if (truncQ (1 / 2 + (planePt orig dir).X + 1000) +
            truncQ (1 / 2 * (planePt orig dir).Z)) % 2 ≠ 0
      then ⟨3/10, 3/10, 3/10⟩ else ⟨3/10, 21/100, 9/100⟩ := by
  obtain ⟨h1, h2, h3, h4, h5, h6⟩ := h
  simp only [sceneIntersect, if_pos h1, if_pos (⟨h2, h3, h4, h5, h6⟩ :
    planeD orig dir > 0 ∧ |(planePt orig dir).X| < 10 ∧ (planePt orig dir).Z < -10 ∧
      (planePt orig dir).Z > -30 ∧ planeD orig dir < (sphereLoop orig dir spheres).1)]
  rw [matSetDiffuse_diffuse]
  split_ifs with hp
  · norm_num [vec3f.MultiplyF]
  · norm_num [vec3f.MultiplyF]

/-- A sphere scan in which every `RayIntersect` misses leaves the loop
state unchanged. -/
lemma sphereLoopAux_all_miss (orig dir : vec3f) (spheres : List Sphere)
    (h : ∀ s ∈ spheres, (RayIntersect s orig dir).1 = false) :
    ∀ st, sphereLoopAux orig dir spheres st = st := by
  induction spheres with
  | nil => intro st; rfl
  | cons a t ih =>
    intro st
    have ha := h a (by simp)
    simp only [sphereLoopAux, ha]
    rw [if_neg (by simp)]
    exact ih (fun s hs => h s (List.mem_cons_of_mem a hs)) st

/-- `castRay` returns the sky color whenever the depth guard fires or
the scene intersector reports no hit. -/
lemma castRay_base (orig dir : vec3f) (spheres : List Sphere) (lights : List Light)
    (store : MatStore) (depth : ℕ)
    (h : depth > 4 ∨ (sceneIntersect orig dir spheres store).intersect = false) :
    (castRay orig dir spheres lights store depth).1 = ⟨55/255, 176/255, 202/255⟩ := by
  rw [castRay, dif_pos h]

lemma MultiplyF_zero (v : vec3f) : v.MultiplyF 0 = ⟨0, 0, 0⟩ := by
  simp [vec3f.MultiplyF]

lemma zero_MultiplyF (k : ℚ) : (⟨0, 0, 0⟩ : vec3f).MultiplyF k = ⟨0, 0, 0⟩ := by
  simp [vec3f.MultiplyF]

lemma Add_zero_vec (v : vec3f) : v.Add ⟨0, 0, 0⟩ = v := by
  simp [vec3f.Add]

lemma zero_Add_vec (v : vec3f) : (⟨0, 0, 0⟩ : vec3f).Add v = v := by
  simp [vec3f.Add]

lemma truncQ_of_nonneg (q : ℚ) (h : 0 ≤ q) : truncQ q = ⌊q⌋ :=
  if_neg (not_lt.mpr h)

/-- The intersection flag of `sceneIntersect` is exactly the test
`min(spheresDist, checkboardDist) < 1000`. -/
lemma sceneIntersect_intersect_eq (orig dir : vec3f) (spheres : List Sphere) (store : MatStore) :
    (sceneIntersect orig dir spheres store).intersect =
      decide (min (sphereLoop orig dir spheres).1 (checkboardDist orig dir spheres) < 1000) := by
  by_cases h1 : |dir.Y| > 1 / 1000
  · by_cases h2 : planeD orig dir > 0 ∧ |(planePt orig dir).X| < 10 ∧
        (planePt orig dir).Z < -10 ∧ (planePt orig dir).Z > -30 ∧
        planeD orig dir < (sphereLoop orig dir spheres).1
    · have hacc : planeAccepted orig dir spheres :=
        ⟨h1, h2.1, h2.2.1, h2.2.2.1, h2.2.2.2.1, h2.2.2.2.2⟩
      simp only [sceneIntersect, checkboardDist, if_pos h1, if_pos h2, if_pos hacc]
    · have hacc : ¬planeAccepted orig dir spheres := by
        intro hc
        exact h2 ⟨hc.2.1, hc.2.2.1, hc.2.2.2.1, hc.2.2.2.2.1, hc.2.2.2.2.2⟩
      simp only [sceneIntersect, checkboardDist, if_pos h1, if_neg h2, if_neg hacc]
  · have hacc : ¬planeAccepted orig dir spheres := fun hc => h1 hc.1
    simp only [sceneIntersect, checkboardDist, if_neg h1, if_neg hacc]

lemma Multiply_MultiplyF (a b : vec3f) (k : ℚ) :
    a.Multiply (b.MultiplyF k) = k * a.Multiply b := by
  simp only [vec3f.Multiply, vec3f.MultiplyF]
  ring

/-! ### Claim theorems -/

/-- Claim C1 (the code violates it): `sceneIntersect` does NOT always
leave the spheres' shared materials unchanged. At this concrete ray a
sphere centered on the ray is provisionally the nearest hit, the
checkerboard plane supersedes it, and the write
`curMaterial.DiffuseColor = ...` goes through the pointer to the
sphere's shared material: the store entry for `ivory` is mutated from
diffuse `(0.4, 0.4, 0.3)` to the dimmed checker color
`(0.3, 0.21, 0.09)`. -/
theorem sceneIntersect_mutates_shared_material :
    planeAccepted ⟨0, 0, 0⟩ ⟨0, -7/25, -24/25⟩ [⟨⟨0, -28/5, -96/5⟩, 2, 0⟩] ∧
    (storeOf [ivory] 0).DiffuseColor = ⟨2/5, 2/5, 3/10⟩ ∧
    ((sceneIntersect ⟨0, 0, 0⟩ ⟨0, -7/25, -24/25⟩ [⟨⟨0, -28/5, -96/5⟩, 2, 0⟩]
        (storeOf [ivory])).store 0).DiffuseColor = ⟨3/10, 21/100, 9/100⟩ := by
  refine ⟨?_, ?_, ?_⟩ <;>
    norm_num [planeAccepted, sceneIntersect, sphereLoop, sphereLoopAux, RayIntersect,
      planeD, planePt, storeOf, storeSet, matSetDiffuse, matDeref, maxFloat64,
      vec3f.Multiply, vec3f.MultiplyF, vec3f.Add, vec3f.Subtract, vec3f.Normalize, vec3f.norm,
      NewMaterial, ivory, truncQ, abs_of_nonneg, abs_of_nonpos, abs_neg]

/-- Claim C2, counterexample to the floor-based formula: the hit
points `(0,-4,-12)` and `(0,-4,-11)` have the same parity under the
spec's sum `floor(0.5+hitX+1000) + floor(0.5*hitZ)` (both even), yet
the code reports different checker colors for them, because Go's
`int(0.5*hitZ)` truncates `-5.5` to `-5` (toward zero), not to
`floor(-5.5) = -6`. -/
theorem checker_parity_not_spec_floor :
    specCheckerParity 0 (-12) % 2 = 0 ∧
    specCheckerParity 0 (-11) % 2 = 0 ∧
    planeAccepted ⟨0, 0, 0⟩ ⟨0, -1, -3⟩ [] ∧
    planeAccepted ⟨0, 0, 0⟩ ⟨0, -1, -11/4⟩ [] ∧
    (sceneIntersect ⟨0, 0, 0⟩ ⟨0, -1, -3⟩ [] (storeOf [])).point = ⟨0, -4, -12⟩ ∧
    (sceneIntersect ⟨0, 0, 0⟩ ⟨0, -1, -11/4⟩ [] (storeOf [])).point = ⟨0, -4, -11⟩ ∧
    (sceneIntersect ⟨0, 0, 0⟩ ⟨0, -1, -3⟩ [] (storeOf [])).material.DiffuseColor ≠
      (sceneIntersect ⟨0, 0, 0⟩ ⟨0, -1, -11/4⟩ [] (storeOf [])).material.DiffuseColor := by
  refine ⟨by norm_num [specCheckerParity], by norm_num [specCheckerParity], ?_, ?_, ?_, ?_, ?_⟩ <;>
    norm_num [planeAccepted, sceneIntersect, sphereLoop, sphereLoopAux, planeD, planePt,
      storeOf, storeSet, matSetDiffuse, matDeref, maxFloat64, vec3f.Multiply, vec3f.MultiplyF,
      vec3f.Add, vec3f.Subtract, NewMaterial, truncQ, abs_of_nonneg, abs_of_nonpos, abs_neg]

/-- Claim C2 as amended: for every accepted checkerboard hit the
diffuse color is selected by the parity of
`trunc(0.5 + hitX + 1000) + trunc(0.5*hitZ)` with Go's truncation
toward zero (even gives the dimmed orange `(0.3, 0.21, 0.09)`, odd the
dimmed white `(0.3, 0.3, 0.3)`), and two accepted hits whose `x`
coordinates differ by exactly one unit at the same `z` get the two
different checker colors. -/
theorem checker_color_parity (orig dir : vec3f) (spheres : List Sphere) (store : MatStore)
    (h : planeAccepted orig dir spheres) :
    ((truncQ (1 / 2 + (planePt orig dir).X + 1000) +
        truncQ (1 / 2 * (planePt orig dir).Z)) % 2 = 0 →
      (sceneIntersect orig dir spheres store).material.DiffuseColor = ⟨3/10, 21/100, 9/100⟩) ∧
    ((truncQ (1 / 2 + (planePt orig dir).X + 1000) +
        truncQ (1 / 2 * (planePt orig dir).Z)) % 2 ≠ 0 →
      (sceneIntersect orig dir spheres store).material.DiffuseColor = ⟨3/10, 3/10, 3/10⟩) ∧
    (∀ (orig2 dir2 : vec3f) (spheres2 : List Sphere) (store2 : MatStore),
      planeAccepted orig2 dir2 spheres2 →
      (planePt orig2 dir2).X = (planePt orig dir).X + 1 →
      (planePt orig2 dir2).Z = (planePt orig dir).Z →
      (sceneIntersect orig2 dir2 spheres2 store2).material.DiffuseColor ≠
        (sceneIntersect orig dir spheres store).material.DiffuseColor) := by
  refine ⟨fun hp => ?_, fun hp => ?_, fun orig2 dir2 spheres2 store2 h2 hX hZ => ?_⟩
  · rw [planeHitColor orig dir spheres store h, if_neg (by simpa using hp)]
  · rw [planeHitColor orig dir spheres store h, if_pos hp]
  · have hx1 : 0 ≤ 1 / 2 + (planePt orig dir).X + 1000 := by
      have habs := abs_lt.mp h.2.2.1
      linarith [habs.1]
    have hx2 : 0 ≤ 1 / 2 + (planePt orig2 dir2).X + 1000 := by
      have habs := abs_lt.mp h2.2.2.1
      linarith [habs.1]
    have hfl : truncQ (1 / 2 + (planePt orig2 dir2).X + 1000) =
        truncQ (1 / 2 + (planePt orig dir).X + 1000) + 1 := by
      rw [truncQ_of_nonneg _ hx1, truncQ_of_nonneg _ hx2, hX]
      rw [show (1 : ℚ) / 2 + ((planePt orig dir).X + 1) + 1000 =
        (1 / 2 + (planePt orig dir).X + 1000) + 1 by ring]
      exact Int.floor_add_one _
    have hcol1 := planeHitColor orig dir spheres store h
    have hcol2 := planeHitColor orig2 dir2 spheres2 store2 h2
    rw [hfl, hZ] at hcol2
    set A := truncQ (1 / 2 + (planePt orig dir).X + 1000) with hAdef
    set B := truncQ (1 / 2 * (planePt orig dir).Z) with hBdef
    by_cases hp : (A + B) % 2 = 0
    · have e1 : (sceneIntersect orig dir spheres store).material.DiffuseColor =
          ⟨3/10, 21/100, 9/100⟩ := by
        rw [hcol1, if_neg (by omega)]
      have e2 : (sceneIntersect orig2 dir2 spheres2 store2).material.DiffuseColor =
          ⟨3/10, 3/10, 3/10⟩ := by
        rw [hcol2, if_pos (by omega)]
      rw [e1, e2]
      simp only [ne_eq, vec3f.mk.injEq]
      norm_num
    · have e1 : (sceneIntersect orig dir spheres store).material.DiffuseColor =
          ⟨3/10, 3/10, 3/10⟩ := by
        rw [hcol1, if_pos hp]
      have e2 : (sceneIntersect orig2 dir2 spheres2 store2).material.DiffuseColor =
          ⟨3/10, 21/100, 9/100⟩ := by
        rw [hcol2, if_neg (by omega)]
      rw [e1, e2]
      simp only [ne_eq, vec3f.mk.injEq]
      norm_num

/-- Witness for the amended claim C2: the accepted hit `(0,-4,-12)`
has even truncation parity and receives the dimmed orange color. -/
theorem checker_color_parity_witness :
    (sceneIntersect ⟨0, 0, 0⟩ ⟨0, -1, -3⟩ [] (storeOf [])).material.DiffuseColor =
      ⟨3/10, 21/100, 9/100⟩ :=
  (checker_color_parity ⟨0, 0, 0⟩ ⟨0, -1, -3⟩ [] (storeOf [])
      (by norm_num [planeAccepted, planeD, planePt, sphereLoop, sphereLoopAux, maxFloat64,
        vec3f.Multiply, vec3f.MultiplyF, vec3f.Add, abs_of_nonneg, abs_of_nonpos, abs_neg])).1
    (by norm_num [truncQ, planePt, planeD, vec3f.Add, vec3f.MultiplyF])

/-- Claim C3, counterexample: at this ray the checkerboard plane is
the winning hit (it supersedes a provisional sphere hit), yet the
returned material does not carry the purely diffuse defaults: it
carries the superseded sphere's albedo, specular exponent and
refractive index (here those of `glass`). -/
theorem plane_material_not_default :
    planeAccepted ⟨0, 0, 0⟩ ⟨0, -7/25, -24/25⟩ [⟨⟨0, -28/5, -96/5⟩, 2, 0⟩] ∧
    (sceneIntersect ⟨0, 0, 0⟩ ⟨0, -7/25, -24/25⟩ [⟨⟨0, -28/5, -96/5⟩, 2, 0⟩]
        (storeOf [glass])).material.Albedo ≠ ⟨1, 0, 0, 0⟩ ∧
    (sceneIntersect ⟨0, 0, 0⟩ ⟨0, -7/25, -24/25⟩ [⟨⟨0, -28/5, -96/5⟩, 2, 0⟩]
        (storeOf [glass])).material.SpecularExponent ≠ 0 ∧
    (sceneIntersect ⟨0, 0, 0⟩ ⟨0, -7/25, -24/25⟩ [⟨⟨0, -28/5, -96/5⟩, 2, 0⟩]
        (storeOf [glass])).material.RefractiveIndex ≠ 1 := by
  refine ⟨?_, ?_, ?_, ?_⟩ <;>
    norm_num [planeAccepted, sceneIntersect, sphereLoop, sphereLoopAux, RayIntersect,
      planeD, planePt, storeOf, storeSet, matSetDiffuse, matDeref, maxFloat64,
      vec3f.Multiply, vec3f.MultiplyF, vec3f.Add, vec3f.Subtract, vec3f.Normalize, vec3f.norm,
      NewMaterial, glass, truncQ, vec4f.mk.injEq, abs_of_nonneg, abs_of_nonpos, abs_neg]

/-- Claim C3 as amended: when the checkerboard plane wins and no
sphere recorded any hit, the reported material carries the
`NewMaterial` defaults — albedo `(1,0,0,0)` (purely diffuse,
non-reflective, non-refractive), specular exponent 0, refractive index
1 — and only its diffuse color (one of the two dimmed checker colors)
depends on the hit point. -/
theorem plane_defaults_no_sphere (orig dir : vec3f) (spheres : List Sphere) (store : MatStore)
    (hmiss : ∀ s ∈ spheres, (RayIntersect s orig dir).1 = false)
    (hacc : planeAccepted orig dir spheres) :
    (sceneIntersect orig dir spheres store).material.Albedo = ⟨1, 0, 0, 0⟩ ∧
    (sceneIntersect orig dir spheres store).material.SpecularExponent = 0 ∧
    (sceneIntersect orig dir spheres store).material.RefractiveIndex = 1 ∧
    ((sceneIntersect orig dir spheres store).material.DiffuseColor = ⟨3/10, 21/100, 9/100⟩ ∨
      (sceneIntersect orig dir spheres store).material.DiffuseColor = ⟨3/10, 3/10, 3/10⟩) := by
  have hsl : sphereLoop orig dir spheres =
      (maxFloat64, MatRef.fresh NewMaterial, ⟨0, 0, 0⟩, ⟨0, 0, 0⟩) := by
    rw [sphereLoop, sphereLoopAux_all_miss orig dir spheres hmiss]
  obtain ⟨h1, h2, h3, h4, h5, h6⟩ := hacc
  simp only [sceneIntersect, if_pos h1, hsl, if_pos (⟨h2, h3, h4, h5, by rw [hsl] at h6; exact h6⟩ :
    planeD orig dir > 0 ∧ |(planePt orig dir).X| < 10 ∧ (planePt orig dir).Z < -10 ∧
      (planePt orig dir).Z > -30 ∧ planeD orig dir < maxFloat64)]
  simp only [matSetDiffuse, matDeref, NewMaterial]
  refine ⟨trivial, trivial, trivial, ?_⟩
  split_ifs with hp
  · right
    norm_num [vec3f.MultiplyF]
  · left
    norm_num [vec3f.MultiplyF]

/-- Witness for the amended claim C3: an accepted plane hit with no
spheres in the scene reports the default material. -/
theorem plane_defaults_no_sphere_witness :
    (sceneIntersect ⟨0, 0, 0⟩ ⟨0, -1, -3⟩ [] (storeOf [ivory])).material.Albedo = ⟨1, 0, 0, 0⟩ ∧
    (sceneIntersect ⟨0, 0, 0⟩ ⟨0, -1, -3⟩ [] (storeOf [ivory])).material.SpecularExponent = 0 ∧
    (sceneIntersect ⟨0, 0, 0⟩ ⟨0, -1, -3⟩ [] (storeOf [ivory])).material.RefractiveIndex = 1 ∧
    ((sceneIntersect ⟨0, 0, 0⟩ ⟨0, -1, -3⟩ [] (storeOf [ivory])).material.DiffuseColor =
        ⟨3/10, 21/100, 9/100⟩ ∨
      (sceneIntersect ⟨0, 0, 0⟩ ⟨0, -1, -3⟩ [] (storeOf [ivory])).material.DiffuseColor =
        ⟨3/10, 3/10, 3/10⟩) :=
  plane_defaults_no_sphere ⟨0, 0, 0⟩ ⟨0, -1, -3⟩ [] (storeOf [ivory])
    (by simp)
    (by norm_num [planeAccepted, planeD, planePt, sphereLoop, sphereLoopAux, maxFloat64,
      vec3f.Multiply, vec3f.MultiplyF, vec3f.Add, abs_of_nonneg, abs_of_nonpos, abs_neg])

/-- Claim C4: `castRay` is total (it is a well-founded Lean function),
and whenever `depth > 4` or the scene intersector reports no hit it
returns the fixed sky-blue background `(55/255, 176/255, 202/255)`; in
particular every call at depth 5 returns the background without
recursing. -/
theorem castRay_depth_guard (orig dir : vec3f) (spheres : List Sphere) (lights : List Light)
    (store : MatStore) (depth : ℕ)
    (h : depth > 4 ∨ (sceneIntersect orig dir spheres store).intersect = false) :
    (castRay orig dir spheres lights store depth).1 = ⟨55/255, 176/255, 202/255⟩ :=
  castRay_base orig dir spheres lights store depth h

/-- Witness for claim C4: the reference scene at depth 5 returns the
background color. -/
theorem castRay_depth_guard_witness :
    (castRay ⟨0, 0, 0⟩ ⟨0, 0, -1⟩ mainSpheres mainLights mainStore 5).1 =
      ⟨55/255, 176/255, 202/255⟩ :=
  castRay_depth_guard ⟨0, 0, 0⟩ ⟨0, 0, -1⟩ mainSpheres mainLights mainStore 5
    (Or.inl (by norm_num))

/-- Claim C5: `sceneIntersect` reports a hit exactly when the minimum
of the nearest accepted sphere distance and the accepted plane
distance is strictly below 1000, and when it reports no hit `castRay`
at depth 0 returns exactly the background color
`(55/255, 176/255, 202/255)`. -/
theorem sceneIntersect_hit_iff (orig dir : vec3f) (spheres : List Sphere) (store : MatStore)
    (lights : List Light) :
    ((sceneIntersect orig dir spheres store).intersect = true ↔
      min (sphereLoop orig dir spheres).1 (checkboardDist orig dir spheres) < 1000) ∧
    ((sceneIntersect orig dir spheres store).intersect = false →
      (castRay orig dir spheres lights store 0).1 = ⟨55/255, 176/255, 202/255⟩) := by
  constructor
  · rw [sceneIntersect_intersect_eq]
    simp
  · intro hf
    exact castRay_base orig dir spheres lights store 0 (Or.inr hf)

/-- Witness for claim C5: in the reference scene a ray fired straight
up from the origin misses every sphere and the plane bounds, so the
pixel gets the exact background color. -/
theorem sceneIntersect_hit_iff_witness :
    (castRay ⟨0, 0, 0⟩ ⟨0, 1, 0⟩ mainSpheres mainLights mainStore 0).1 =
      ⟨55/255, 176/255, 202/255⟩ :=
  (sceneIntersect_hit_iff ⟨0, 0, 0⟩ ⟨0, 1, 0⟩ mainSpheres mainStore mainLights).2
    (by norm_num [sceneIntersect, sphereLoop, sphereLoopAux, RayIntersect, planeD, planePt,
      mainSpheres, mainStore, storeOf, matDeref, maxFloat64, vec3f.Multiply, vec3f.MultiplyF,
      vec3f.Add, vec3f.Subtract, NewMaterial, abs_of_nonneg, abs_of_nonpos, abs_neg])

/-- Claim C6: `refract` clamps the incidence cosine to `[-1,1]`; with
a negative cosine it recurses exactly once with the normal negated and
the two indices swapped (the flipped call has nonnegative cosine);
otherwise with `eta = etai/refractiveIndex` and
`k = 1 - eta^2 (1 - cosi^2)` it returns the sentinel `(1,0,0)` when
`k < 0` (total internal reflection) and
`eta*d + (eta*cosi - sqrt k)*n` when `k >= 0`. -/
theorem refract_characterization (i n : vec3f) (ri etai cosi eta k : ℚ)
    (hcosi : cosi = max (-1) (min 1 (i.Multiply n)))
    (heta : eta = etai / ri)
    (hk : k = 1 - eta * eta * (1 - cosi * cosi)) :
    (cosi < 0 →
      refract i n ri etai = refract i (n.MultiplyF (-1)) etai ri ∧
      0 ≤ max (-1) (min 1 (i.Multiply (n.MultiplyF (-1))))) ∧
    (0 ≤ cosi → k < 0 → refract i n ri etai = ⟨1, 0, 0⟩) ∧
    (0 ≤ cosi → 0 ≤ k → refract i n ri etai =
      (i.MultiplyF eta).Add (n.MultiplyF (eta * cosi - Rat.sqrt k))) := by
  subst hcosi heta hk
  refine ⟨fun hneg => ⟨?_, ?_⟩, fun hpos hklt => ?_, fun hpos hkge => ?_⟩
  · rw [refract, dif_pos hneg]
  · have hflip : i.Multiply (n.MultiplyF (-1)) = -(i.Multiply n) := by
      simp only [vec3f.Multiply, vec3f.MultiplyF]
      ring
    have hd : i.Multiply n < 0 := by
      by_contra hc
      push_neg at hc
      exact absurd hneg (not_lt.mpr (le_max_of_le_right (le_min (by norm_num) hc)))
    rw [hflip]
    exact le_max_of_le_right (le_min (by norm_num) (by linarith))
  · rw [refract, dif_neg (not_lt.mpr hpos)]
    simp only []
    rw [if_pos hklt]
  · rw [refract, dif_neg (not_lt.mpr hpos)]
    simp only []
    rw [if_neg (not_lt.mpr hkge)]

/-- Witness for claim C6: a head-on ray entering a glass surface has
cosine `-1 < 0`, so `refract` equals its flipped-and-swapped call. -/
theorem refract_characterization_witness :
    refract ⟨0, 0, -1⟩ ⟨0, 0, 1⟩ (3/2) 1 =
      refract ⟨0, 0, -1⟩ ((⟨0, 0, 1⟩ : vec3f).MultiplyF (-1)) 1 (3/2) :=
  ((refract_characterization ⟨0, 0, -1⟩ ⟨0, 0, 1⟩ (3/2) 1 (-1) (2/3)
      (1 - 2/3 * (2/3) * (1 - -1 * -1))
      (by norm_num [vec3f.Multiply]) (by norm_num) rfl).1 (by norm_num)).1

/-- Claim C7: in the light loop of `castRay` (whose body is
`lightStep`), a light whose shadow ray hits the scene strictly closer
than the light's distance contributes exactly zero to both the diffuse
and the specular accumulator, and an unoccluded light adds exactly its
diffuse term `intensity * max(0, lightDir . n)` and its specular term
`pow(max(0, -reflect(-lightDir, n) . dir), specularExponent) *
intensity`. -/
theorem lightStep_occlusion (point n dir : vec3f) (m : Material) (spheres : List Sphere)
    (dli sli : ℚ) (st : MatStore) (light : Light)
    (lightDir : vec3f) (lightDistance : ℚ) (shadowOrig : vec3f) (sr : SIResult)
    (hld : lightDir = (light.Position.Subtract point).Normalize)
    (hdist : lightDistance = (light.Position.Subtract point).norm)
    (hso : shadowOrig = if lightDir.Multiply n < 0
        then point.Subtract (n.MultiplyF (1 / 1000)) else point.Add (n.MultiplyF (1 / 1000)))
    (hsr : sr = sceneIntersect shadowOrig lightDir spheres st) :
    (sr.intersect = true ∧ (sr.point.Subtract shadowOrig).norm < lightDistance →
      lightStep point n dir m spheres (dli, sli, st) light = (dli, sli, sr.store)) ∧
    (¬(sr.intersect = true ∧ (sr.point.Subtract shadowOrig).norm < lightDistance) →
      lightStep point n dir m spheres (dli, sli, st) light =
        (dli + light.Intensity * max 0 (lightDir.Multiply n),
          sli + mathPow (max 0 (((reflect (lightDir.MultiplyF (-1)) n).MultiplyF (-1)).Multiply dir))
              m.SpecularExponent * light.Intensity,
          sr.store)) := by
  subst hld hdist hso hsr
  constructor
  · intro hocc
    simp only [lightStep]
    rw [if_pos hocc]
  · intro hocc
    simp only [lightStep]
    rw [if_neg hocc]

/-- Witness for claim C7: a unit sphere centered between a floor point
and the light above it occludes the light, so the accumulators (5, 7)
pass through unchanged. -/
theorem lightStep_occlusion_witness :
    lightStep ⟨0, -4, -12⟩ ⟨0, 1, 0⟩ ⟨0, 0, -1⟩ NewMaterial [⟨⟨0, 0, -12⟩, 1, 0⟩]
      (5, 7, storeOf [redRubber]) ⟨⟨0, 6, -12⟩, 3/2⟩ = (5, 7, storeOf [redRubber]) := by
  have h := (lightStep_occlusion ⟨0, -4, -12⟩ ⟨0, 1, 0⟩ ⟨0, 0, -1⟩ NewMaterial
      [⟨⟨0, 0, -12⟩, 1, 0⟩] 5 7 (storeOf [redRubber]) ⟨⟨0, 6, -12⟩, 3/2⟩
      ⟨0, 1, 0⟩ 10 ⟨0, -3999/1000, -12⟩
      ⟨true, ⟨0, -1, -12⟩, ⟨0, -1, 0⟩, redRubber, storeOf [redRubber]⟩
      (by norm_num [vec3f.Subtract, vec3f.Normalize, vec3f.norm, vec3f.MultiplyF])
      (by norm_num [vec3f.Subtract, vec3f.norm])
      (by norm_num [vec3f.Multiply, vec3f.MultiplyF, vec3f.Add, vec3f.Subtract])
      (by norm_num [sceneIntersect, sphereLoop, sphereLoopAux, RayIntersect, planeD, planePt,
        storeOf, matDeref, maxFloat64, vec3f.Multiply, vec3f.MultiplyF, vec3f.Add, vec3f.Subtract,
        vec3f.Normalize, vec3f.norm, NewMaterial, SIResult.mk.injEq,
        abs_of_nonneg, abs_of_nonpos, abs_neg])).1
    (by norm_num [vec3f.Subtract, vec3f.norm, ratSqrt_shadow])
  exact h

/-- Claim C8: a depth-0 ray that hits a material whose reflective and
refractive albedo weights are both 0, in a scene with no lights,
yields exactly `(0,0,0)`: every term of the composite vanishes. -/
theorem castRay_pure_diffuse_no_lights (orig dir : vec3f) (spheres : List Sphere)
    (store : MatStore)
    (hhit : (sceneIntersect orig dir spheres store).intersect = true)
    (hZ : (sceneIntersect orig dir spheres store).material.Albedo.Z = 0)
    (hT : (sceneIntersect orig dir spheres store).material.Albedo.T = 0) :
    (castRay orig dir spheres [] store 0).1 = ⟨0, 0, 0⟩ := by
  rw [castRay, dif_neg (by simp [hhit])]
  simp only [List.foldl_nil, hZ, hT, MultiplyF_zero, zero_MultiplyF, Add_zero_vec, zero_Add_vec]

/-- Witness for claim C8: a purely diffuse sphere hit head-on with no
lights renders black. -/
theorem castRay_pure_diffuse_no_lights_witness :
    (castRay ⟨0, 0, 0⟩ ⟨0, 0, -1⟩ [⟨⟨0, 0, -5⟩, 1, 0⟩] []
      (storeOf [{ Albedo := ⟨1, 0, 0, 0⟩, DiffuseColor := ⟨3/10, 1/10, 1/10⟩,
                  SpecularExponent := 0, RefractiveIndex := 1 }]) 0).1 = ⟨0, 0, 0⟩ :=
  castRay_pure_diffuse_no_lights ⟨0, 0, 0⟩ ⟨0, 0, -1⟩ [⟨⟨0, 0, -5⟩, 1, 0⟩]
    (storeOf [{ Albedo := ⟨1, 0, 0, 0⟩, DiffuseColor := ⟨3/10, 1/10, 1/10⟩,
                SpecularExponent := 0, RefractiveIndex := 1 }])
    (by norm_num [sceneIntersect, sphereLoop, sphereLoopAux, RayIntersect, planeD, planePt,
      storeOf, matDeref, maxFloat64, vec3f.Multiply, vec3f.MultiplyF, vec3f.Add, vec3f.Subtract,
      vec3f.Normalize, vec3f.norm, NewMaterial, abs_of_nonneg, abs_of_nonpos, abs_neg])
    (by norm_num [sceneIntersect, sphereLoop, sphereLoopAux, RayIntersect, planeD, planePt,
      storeOf, matDeref, maxFloat64, vec3f.Multiply, vec3f.MultiplyF, vec3f.Add, vec3f.Subtract,
      vec3f.Normalize, vec3f.norm, NewMaterial, abs_of_nonneg, abs_of_nonpos, abs_neg])
    (by norm_num [sceneIntersect, sphereLoop, sphereLoopAux, RayIntersect, planeD, planePt,
      storeOf, matDeref, maxFloat64, vec3f.Multiply, vec3f.MultiplyF, vec3f.Add, vec3f.Subtract,
      vec3f.Normalize, vec3f.norm, NewMaterial, abs_of_nonneg, abs_of_nonpos, abs_neg])

/-- Claim C9: a ray fired from outside a sphere of positive radius
along the unit direction toward its center hits it at distance
`|origin - center| - radius` exactly (here `L` is that norm:
`L^2 = |center - origin|^2` and `r < L`). -/
theorem RayIntersect_center_ray (o c : vec3f) (r L : ℚ) (mi : ℕ)
    (hr : 0 < r) (hL : r < L)
    (hdot : (c.Subtract o).Multiply (c.Subtract o) = L * L) :
    RayIntersect ⟨c, r, mi⟩ o ((c.Subtract o).MultiplyF (1 / L)) = (true, L - r) := by
  have hL0 : (0 : ℚ) < L := lt_trans hr hL
  have htca : (c.Subtract o).Multiply ((c.Subtract o).MultiplyF (1 / L)) = L := by
    rw [Multiply_MultiplyF, hdot]
    field_simp
  simp only [RayIntersect, htca, hdot]
  rw [if_neg (by nlinarith)]
  rw [show L * L - L * L = 0 by ring, show r * r - 0 = r * r by ring,
    ratSqrt_of_sq r (le_of_lt hr)]
  have hnn : ¬(L - r < 0) := by linarith
  rw [if_neg hnn]
  rw [if_neg hnn]

/-- Witness for claim C9: a sphere of radius 2 centered 5 units away
is hit at distance 3. -/
theorem RayIntersect_center_ray_witness :
    RayIntersect ⟨⟨0, 0, -5⟩, 2, 0⟩ ⟨0, 0, 0⟩
      (((⟨0, 0, -5⟩ : vec3f).Subtract ⟨0, 0, 0⟩).MultiplyF (1/5)) = (true, 3) := by
  have h := RayIntersect_center_ray ⟨0, 0, 0⟩ ⟨0, 0, -5⟩ 2 5 0 (by norm_num) (by norm_num)
    (by norm_num [vec3f.Subtract, vec3f.Multiply])
  norm_num at h
  exact h

/-- Claim C10, counterexample to the rounding formula: at channel
value 0.9 the code's conversion `uint8(clamp(0.9)*255)` truncates
229.5 to 229, while the spec's `round(clamp(c,0,1)*255)` gives 230. -/
theorem quantize_not_round :
    quantizeChannel (9/10) = 229 ∧ specQuantizeChannel (9/10) = 230 := by
  norm_num [quantizeChannel, specQuantizeChannel, truncQ, round_eq]

/-- Claim C10 as amended: each 8-bit channel equals the truncation —
equivalently the floor, since the clamped product is nonnegative — of
`clamp(c,0,1) * 255`, not its rounding. -/
theorem quantize_eq_floor (c : ℚ) : quantizeChannel c = ⌊min (max 0 c) 1 * 255⌋ := by
  have h0 : (0 : ℚ) ≤ min (max 0 c) 1 * 255 := by
    have : (0 : ℚ) ≤ min (max 0 c) 1 := le_min (le_max_left 0 c) (by norm_num)
    positivity
  rw [quantizeChannel, truncQ, if_neg (not_lt.mpr h0)]
